import Mathlib

/-!
Shallow embedding of `scripts/qgis_risk_assessment.py` from the
digital-epidemic-surveillance-platform repository.

The script is a placeholder: a hard-coded install-path constant, an
initialization function that imports the PyQGIS libraries inside a
`try`/`except` block, a `run_risk_assessment` function that only prints
fixed status messages, and a main block that starts the QGIS runtime,
runs the (placeholder) workflow, and shuts the runtime down.

Python exceptions of class `Exception` are modelled by `Exc`; an
observable action of the script (a `print`, a call into the QGIS
library, a file write) is an `Effect`; the environment the script runs
in (which library calls fail, and where QGIS is actually installed) is
a `World`.  Each Python function becomes a Lean function from `World`
to the list of effects it performs (plus its return value); a body that
may raise returns `Except Exc`.
-/

namespace QgisRiskAssessment

/-- Line 26 of the script: `QGIS_INSTALL_PATH = '/usr'`. -/
def QGIS_INSTALL_PATH : String := "/usr"

/-- A Python exception of class `Exception`: either an `ImportError`
(raised by a failing `import`) or some other `Exception` carrying a
message (what `str(e)` would yield). -/
inductive Exc where
  | importError
  | exception (msg : String)
deriving DecidableEq, Repr

/-- An observable action the script can perform. `writeFile` is in the
vocabulary so that "the script writes no file" is expressible; the
embedding never emits it because the source contains no write. -/
inductive Effect where
  | printLine (s : String)
  | setPrefixPath (path : String) (useDefaultPaths : Bool)
  | callInitQgis
  | sysPathAppend (path : String)
  | callProcessingInitialize
  | callExitQgis
  | writeFile (path contents : String)
deriving DecidableEq, Repr

/-- The `QgsApplication` object built on line 37:
`qgs = QgsApplication([], False)`. -/
structure QgsHandle where
  args : List String
  guiEnabled : Bool
deriving DecidableEq, Repr

/-- The environment an execution runs in: where QGIS is actually
installed on this machine, and, for each statement of the `try` block
of `initialize_qgis`, whether that statement raises (and which
exception).  `none` means the statement succeeds. -/
structure World where
  actualInstallPath : String
  importQgisCoreExc : Option Exc
  importQgisAnalysisExc : Option Exc
  setPrefixPathExc : Option Exc
  qgsApplicationExc : Option Exc
  initQgisExc : Option Exc
  sysPathAppendExc : Option Exc
  importProcessingExc : Option Exc
  importProcessingCoreExc : Option Exc
  processingInitializeExc : Option Exc
deriving DecidableEq, Repr

/-- `os.path.join` for the one absolute-plus-relative use on line 41:
a separator is inserted unless the first component already ends with
one. -/
def os_path_join (a b : String) : String :=
  if a.data.getLast? = some '/' then a ++ b else a ++ "/" ++ b

/-- The body of the `try` block of `initialize_qgis` (lines 33-47):
each statement either raises (per the `World`) or performs its effect;
on success the block prints its success message and returns the handle.
Effects performed before a raise are kept. -/
def tryBody (w : World) : List Effect × Except Exc QgsHandle :=
  match w.importQgisCoreExc with
  | some e => ([], .error e)
  | none =>
  match w.importQgisAnalysisExc with
  | some e => ([], .error e)
  | none =>
  match w.setPrefixPathExc with
  | some e => ([], .error e)
  | none =>
  let eff := [Effect.setPrefixPath QGIS_INSTALL_PATH true]
  match w.qgsApplicationExc with
  | some e => (eff, .error e)
  | none =>
  let qgs : QgsHandle := ⟨[], false⟩
  match w.initQgisExc with
  | some e => (eff, .error e)
  | none =>
  let eff := eff ++ [Effect.callInitQgis]
  match w.sysPathAppendExc with
  | some e => (eff, .error e)
  | none =>
  let eff := eff ++ [Effect.sysPathAppend (os_path_join QGIS_INSTALL_PATH "apps/qgis/python/plugins")]
  match w.importProcessingExc with
  | some e => (eff, .error e)
  | none =>
  match w.importProcessingCoreExc with
  | some e => (eff, .error e)
  | none =>
  match w.processingInitializeExc with
  | some e => (eff, .error e)
  | none =>
  (eff ++ [Effect.callProcessingInitialize,
           Effect.printLine "✅ QGIS environment initialized successfully."],
   .ok qgs)

/-- The two prints of the `except ImportError` clause (lines 49-50). -/
def importErrorOutput : List Effect :=
  [Effect.printLine "❌ Error: PyQGIS libraries not found. Is QGIS_INSTALL_PATH correct?",
   Effect.printLine "   This script cannot run without a local QGIS installation."]

/-- The print of the `except Exception as e` clause (line 53). -/
def unexpectedErrorOutput (msg : String) : List Effect :=
  [Effect.printLine ("❌ An unexpected error occurred during QGIS initialization: " ++ msg)]

/-- The `except` clauses of `initialize_qgis` (lines 48-54): given the
raised exception, the handler that matches it, or `none` if no clause
matches (the exception would then propagate to the caller). -/
def exceptClauses (e : Exc) : Option (List Effect) :=
  match e with
  | .importError => some importErrorOutput
  | .exception msg => some (unexpectedErrorOutput msg)

/-- `initialize_qgis` (lines 30-54): run the `try` body; on an
exception, run the matching `except` clause (which prints and returns
`None`); an unmatched exception propagates as `.error`. -/
def initialize_qgis (w : World) : Except Exc (Option QgsHandle × List Effect) :=
  match tryBody w with
  | (eff, .ok qgs) => .ok (some qgs, eff)
  | (eff, .error e) =>
    match exceptClauses e with
    | some handlerEff => .ok (none, eff ++ handlerEff)
    | none => .error e

/-- The value `initialize_qgis` returns to the main block. -/
def initInstance (w : World) : Option QgsHandle :=
  match initialize_qgis w with
  | .ok (o, _) => o
  | .error _ => none

/-- The effects `initialize_qgis` performs. -/
def initEffects (w : World) : List Effect :=
  match initialize_qgis w with
  | .ok (_, eff) => eff
  | .error _ => []

/-- `run_risk_assessment` (lines 56-66): seven prints, nothing else.
The `World` parameter records that an execution happens in some
environment; the body reads none of it. -/
def run_risk_assessment (_w : World) : List Effect :=
  [Effect.printLine "\n--- Starting Automated Risk Assessment ---",
   Effect.printLine "\nStep 1: Loading spatial layers... (Placeholder)",
   Effect.printLine "Step 2: Standardizing layers by clipping... (Placeholder)",
   Effect.printLine "Step 3: Normalizing layers to 0-1 scale... (Placeholder)",
   Effect.printLine "Step 4: Applying Weighted Linear Combination... (Placeholder)",
   Effect.printLine "\n✅ Risk assessment workflow complete (simulation).",
   Effect.printLine "Final risk map would be saved in the output directory."]

/-- The opening print of the main block (line 70). -/
def headEffects : List Effect :=
  [Effect.printLine "Running PyQGIS Script for \x27The Digital Epidemic\x27"]

/-- The `if __name__ == "__main__"` block (lines 69-80): print the
banner, initialize; on a truthy instance run the workflow, call
`exitQgis` and print the closing message; on `None` print the halt
message.  If initialization propagated an exception, only the banner
was printed before the script died. -/
def mainBlock (w : World) : List Effect :=
  match initialize_qgis w with
  | .error _ => headEffects
  | .ok (some _, eff) =>
      headEffects ++ eff ++ run_risk_assessment w ++
        [Effect.callExitQgis, Effect.printLine "\nQGIS environment closed."]
  | .ok (none, eff) =>
      headEffects ++ eff ++
        [Effect.printLine "\nScript execution halted due to initialization failure."]

/-- The lines an effect trace prints, in order. -/
def printedLines (effs : List Effect) : List String :=
  effs.filterMap fun e =>
    match e with
    | .printLine s => some s
    | _ => none

/-- Is the effect a print? -/
def isPrintEffect : Effect → Bool
  | .printLine _ => true
  | _ => false

/-- The four workflow step messages, in the order they are printed. -/
def stepMessages : List String :=
  ["\nStep 1: Loading spatial layers... (Placeholder)",
   "Step 2: Standardizing layers by clipping... (Placeholder)",
   "Step 3: Normalizing layers to 0-1 scale... (Placeholder)",
   "Step 4: Applying Weighted Linear Combination... (Placeholder)"]

/-- A `World` in which every library call succeeds. -/
def worldOk : World :=
  ⟨"/usr", none, none, none, none, none, none, none, none, none⟩

/-- A `World` in which the first PyQGIS import raises `ImportError`. -/
def worldNoQgis : World :=
  ⟨"/usr", some Exc.importError, none, none, none, none, none, none, none, none⟩

/-- A `World` in which `Processing.initialize()` raises a non-import
`Exception`. -/
def worldProcFail : World :=
  ⟨"/usr", none, none, none, none, none, none, none, none,
   some (Exc.exception "boom")⟩

/-- A `World` where QGIS is actually installed under `/opt/qgis`,
not under the hard-coded `/usr`. -/
def worldOpt : World :=
  ⟨"/opt/qgis", none, none, none, none, none, none, none, none, none⟩

/-- The seven lines `run_risk_assessment` prints, in order. -/
def placeholderOutput : List String :=
  ["\n--- Starting Automated Risk Assessment ---",
   "\nStep 1: Loading spatial layers... (Placeholder)",
   "Step 2: Standardizing layers by clipping... (Placeholder)",
   "Step 3: Normalizing layers to 0-1 scale... (Placeholder)",
   "Step 4: Applying Weighted Linear Combination... (Placeholder)",
   "\n✅ Risk assessment workflow complete (simulation).",
   "Final risk map would be saved in the output directory."]

/-- A line with leading spaces removed. -/
def stripLeft (s : String) : String :=
  ⟨s.data.dropWhile (· == ' ')⟩

/-- Does `s` start with `pre` (computed over the character lists)? -/
def strStarts (s pre : String) : Bool :=
  pre.data.isPrefixOf s.data

/-- A Python comment line: its first non-space character is `#`. -/
def isCommentLine (l : String) : Bool :=
  strStarts (stripLeft l) "#"

/-- A blank line (possibly trailing whitespace only). -/
def isBlankLine (l : String) : Bool :=
  (stripLeft l).data.isEmpty

/-- A `print` statement. -/
def isPrintLine (l : String) : Bool :=
  strStarts (stripLeft l) "print("

/-- The statement shapes of the library-initialization boilerplate and
the surrounding scaffolding: imports, definitions, docstrings, the
path constant, `try`/`except`/`return`, the QGIS and Processing calls,
and the main-block control flow. -/
def boilerplatePrefixes : List String :=
  ["import ", "from ", "def ", "\"\"\"",
   "QGIS_INSTALL_PATH", "try:", "except", "return",
   "QgsApplication.setPrefixPath", "qgs = QgsApplication", "qgs.initQgis",
   "sys.path.append", "Processing.initialize",
   "if __name__", "qgs_instance = initialize_qgis", "if qgs_instance:",
   "run_risk_assessment()", "qgs_instance.exitQgis", "else:"]

/-- A boilerplate line: starts (after indentation) with one of the
boilerplate statement shapes. -/
def isBoilerplateLine (l : String) : Bool :=
  boilerplatePrefixes.any fun p => strStarts (stripLeft l) p

/-- A line free of the arithmetic operators a raster computation or a
weighted sum would need. -/
def noArithLine (l : String) : Bool :=
  l.data.all fun c => !(c == '*' || c == '+')

/-- The decorative comment bar of lines 1 and 3: `# ` followed by 78
`=` characters. -/
def commentBar : String :=
  "# " ++ ⟨List.replicate 78 '='⟩

/-- The text of `scripts/qgis_risk_assessment.py`, split at newlines
(the file ends with a single trailing newline). -/
def sourceLines : List String :=
  [commentBar,
   "# Standalone PyQGIS Script for Automated Risk Assessment",
   commentBar,
   "#",
   "# This script is a placeholder for the advanced GIS automation detailed in",
   "# Chapter 11 of \"The Digital Epidemic\".",
   "#",
   "# PURPOSE:",
   "# To automatically perform a knowledge-driven Weighted Linear Combination (WLC)",
   "# risk assessment using a set of raster input layers.",
   "#",
   "# HOW TO RUN:",
   "# This script is intended to be run in an environment where the PyQGIS",
   "# libraries are accessible. It requires a local QGIS installation.",
   "#",
   "# See the book manuscript for the full implementation details, including",
   "# how to set up the QGIS environment and define the input parameters.",
   "",
   "import os",
   "import sys",
   "",
   "# --- USER-DEFINED PARAMETERS ---",
   "# In the full script, these would be configured by the user.",
   "",
   "# IMPORTANT: This path must be changed to your local QGIS installation",
   "QGIS_INSTALL_PATH = \x27/usr\x27 # Example for Linux; \x27C:/Program Files/QGIS 3.28.3\x27 for Windows",
   "",
   "# --- SCRIPT LOGIC (Placeholder) ---",
   "",
   "def initialize_qgis():",
   "    \"\"\"Initializes the QGIS application and processing framework.\"\"\"",
   "    try:",
   "        from qgis.core import QgsApplication",
   "        from qgis.analysis import QgsRasterCalculator",
   "",
   "        QgsApplication.setPrefixPath(QGIS_INSTALL_PATH, True)",
   "        qgs = QgsApplication([], False)",
   "        qgs.initQgis()",
   "        ",
   "        # Add the path to Processing framework",
   "        sys.path.append(os.path.join(QGIS_INSTALL_PATH, \x27apps/qgis/python/plugins\x27))",
   "        import processing",
   "        from processing.core.Processing import Processing",
   "        Processing.initialize()",
   "        ",
   "        print(\"✅ QGIS environment initialized successfully.\")",
   "        return qgs",
   "    except ImportError:",
   "        print(\"❌ Error: PyQGIS libraries not found. Is QGIS_INSTALL_PATH correct?\")",
   "        print(\"   This script cannot run without a local QGIS installation.\")",
   "        return None",
   "    except Exception as e:",
   "        print(f\"❌ An unexpected error occurred during QGIS initialization: \x7be\x7d\")",
   "        return None",
   "",
   "def run_risk_assessment():",
   "    \"\"\"Main function to orchestrate the risk assessment workflow.\"\"\"",
   "    print(\"\\n--- Starting Automated Risk Assessment ---\")",
   "    ",
   "    print(\"\\nStep 1: Loading spatial layers... (Placeholder)\")",
   "    print(\"Step 2: Standardizing layers by clipping... (Placeholder)\")",
   "    print(\"Step 3: Normalizing layers to 0-1 scale... (Placeholder)\")",
   "    print(\"Step 4: Applying Weighted Linear Combination... (Placeholder)\")",
   "    ",
   "    print(\"\\n✅ Risk assessment workflow complete (simulation).\")",
   "    print(\"Final risk map would be saved in the output directory.\")",
   "",
   "# --- Main execution block ---",
   "if __name__ == \"__main__\":",
   "    print(\"Running PyQGIS Script for \x27The Digital Epidemic\x27\")",
   "    ",
   "    qgs_instance = initialize_qgis()",
   "    ",
   "    if qgs_instance:",
   "        run_risk_assessment()",
   "        # Clean up the QGIS application",
   "        qgs_instance.exitQgis()",
   "        print(\"\\nQGIS environment closed.\")",
   "    else:",
   "        print(\"\\nScript execution halted due to initialization failure.\")"]

/-- Every effect the `try` body can ever perform (in any `World`). -/
def tryFixedEffects : List Effect :=
  [Effect.setPrefixPath QGIS_INSTALL_PATH true, Effect.callInitQgis,
   Effect.sysPathAppend (os_path_join QGIS_INSTALL_PATH "apps/qgis/python/plugins"),
   Effect.callProcessingInitialize,
   Effect.printLine "✅ QGIS environment initialized successfully."]

/-! ## Helper lemmas -/

lemma tryBody_effects (w : World) (e : Effect) (h : e ∈ (tryBody w).1) :
    e ∈ tryFixedEffects := by
  obtain ⟨p, f1, f2, f3, f4, f5, f6, f7, f8, f9⟩ := w
  unfold tryBody at h
  rcases f1 with _ | e1 <;> rcases f2 with _ | e2 <;> rcases f3 with _ | e3 <;>
    rcases f4 with _ | e4 <;> rcases f5 with _ | e5 <;> rcases f6 with _ | e6 <;>
    rcases f7 with _ | e7 <;> rcases f8 with _ | e8 <;> rcases f9 with _ | e9 <;>
    simp_all [tryFixedEffects] <;> tauto

lemma initialize_qgis_cases (w : World) :
    (∃ q, initialize_qgis w = Except.ok (some q, (tryBody w).1)) ∨
    initialize_qgis w = Except.ok (none, (tryBody w).1 ++ importErrorOutput) ∨
    (∃ m, initialize_qgis w = Except.ok (none, (tryBody w).1 ++ unexpectedErrorOutput m)) := by
  rcases htb : tryBody w with ⟨eff, res⟩
  rcases res with ex | q
  · rcases ex with _ | m
    · right; left; unfold initialize_qgis; rw [htb]; rfl
    · right; right; exact ⟨m, by unfold initialize_qgis; rw [htb]; rfl⟩
  · left; exact ⟨q, by unfold initialize_qgis; rw [htb]⟩

lemma initialize_qgis_isOk (w : World) : ∃ r, initialize_qgis w = Except.ok r := by
  rcases initialize_qgis_cases w with ⟨q, hq⟩ | hq | ⟨m, hq⟩ <;> exact ⟨_, hq⟩

lemma initEffects_mem (w : World) (e : Effect) (h : e ∈ initEffects w) :
    e ∈ tryFixedEffects ++ importErrorOutput ∨
    ∃ m, e = Effect.printLine
      ("❌ An unexpected error occurred during QGIS initialization: " ++ m) := by
  rcases initialize_qgis_cases w with ⟨q, hq⟩ | hq | ⟨m, hq⟩ <;>
    simp only [initEffects, hq] at h
  · exact Or.inl (List.mem_append_left _ (tryBody_effects w e h))
  · rcases List.mem_append.mp h with h1 | h2
    · exact Or.inl (List.mem_append_left _ (tryBody_effects w e h1))
    · exact Or.inl (List.mem_append_right _ h2)
  · rcases List.mem_append.mp h with h1 | h2
    · exact Or.inl (List.mem_append_left _ (tryBody_effects w e h1))
    · simp only [unexpectedErrorOutput, List.mem_singleton] at h2
      exact Or.inr ⟨m, h2⟩

lemma mainBlock_cases (w : World) :
    ((initInstance w).isSome = true ∧
      mainBlock w = headEffects ++ initEffects w ++ run_risk_assessment w ++
        [Effect.callExitQgis, Effect.printLine "\nQGIS environment closed."]) ∨
    (initInstance w = none ∧
      mainBlock w = headEffects ++ initEffects w ++
        [Effect.printLine "\nScript execution halted due to initialization failure."]) := by
  rcases initialize_qgis_cases w with ⟨q, hq⟩ | hq | ⟨m, hq⟩
  · left; constructor <;> simp [initInstance, initEffects, mainBlock, hq]
  · right; constructor <;> simp [initInstance, initEffects, mainBlock, hq]
  · right; constructor <;> simp [initInstance, initEffects, mainBlock, hq]

lemma callExitQgis_not_init (w : World) : Effect.callExitQgis ∉ initEffects w := by
  intro h
  rcases initEffects_mem w _ h with h1 | ⟨m, h2⟩
  · revert h1; decide
  · exact Effect.noConfusion h2

lemma setPrefixPath_init (w : World) (p : String) (b : Bool)
    (h : Effect.setPrefixPath p b ∈ initEffects w) :
    p = QGIS_INSTALL_PATH ∧ b = true := by
  rcases initEffects_mem w _ h with h1 | ⟨m, h2⟩
  · simp [tryFixedEffects, importErrorOutput] at h1
    exact h1
  · exact Effect.noConfusion h2

lemma mem_printedLines (s : String) (effs : List Effect) :
    s ∈ printedLines effs ↔ Effect.printLine s ∈ effs := by
  induction effs with
  | nil => simp [printedLines]
  | cons e rest ih => cases e <;> simp_all [printedLines, List.filterMap_cons]

lemma unexpected_print_head (msg : String) :
    ("❌ An unexpected error occurred during QGIS initialization: " ++ msg).data.head? =
      some '❌' := by
  cases msg; rfl

lemma ne_unexpected_of_head (s msg : String) (hs : s.data.head? ≠ some '❌') :
    s ≠ "❌ An unexpected error occurred during QGIS initialization: " ++ msg := by
  intro h
  exact hs (h ▸ unexpected_print_head msg)

lemma init_printed_chars (w : World) (s : String)
    (h : s ∈ printedLines (initEffects w)) :
    s ∈ ["✅ QGIS environment initialized successfully.",
         "❌ Error: PyQGIS libraries not found. Is QGIS_INSTALL_PATH correct?",
         "   This script cannot run without a local QGIS installation."] ∨
    ∃ m, s = "❌ An unexpected error occurred during QGIS initialization: " ++ m := by
  rcases initEffects_mem w _ ((mem_printedLines s _).mp h) with h1 | ⟨m, h2⟩
  · left
    simp [tryFixedEffects, importErrorOutput] at h1
    simpa using h1
  · right
    exact ⟨m, by injection h2⟩

lemma step_not_in_init (w : World) (m : String) (hstep : m ∈ stepMessages) :
    m ∉ printedLines (initEffects w) := by
  intro hmem
  rcases init_printed_chars w m hmem with h1 | ⟨msg, h2⟩
  · revert h1; fin_cases hstep <;> decide
  · have hh : m.data.head? ≠ some '❌' := by fin_cases hstep <;> decide
    exact ne_unexpected_of_head m msg hh h2

/-! ## Claim theorems -/

/-- C1: if importing the PyQGIS libraries raises `ImportError` (whatever
statement of the body it comes from), `initialize_qgis` fails gracefully:
it prints the two error lines and returns `None` (an `Except.ok` result,
never a propagated exception). -/
theorem initialize_qgis_importError_graceful (w : World) (eff : List Effect)
    (h : tryBody w = (eff, Except.error Exc.importError)) :
    initialize_qgis w = Except.ok (none, eff ++ importErrorOutput) ∧
    Effect.printLine "❌ Error: PyQGIS libraries not found. Is QGIS_INSTALL_PATH correct?"
      ∈ eff ++ importErrorOutput ∧
    Effect.printLine "   This script cannot run without a local QGIS installation."
      ∈ eff ++ importErrorOutput := by
  refine ⟨?_, ?_, ?_⟩
  · unfold initialize_qgis; rw [h]; rfl
  · simp [importErrorOutput]
  · simp [importErrorOutput]

theorem initialize_qgis_importError_graceful_witness :
    initialize_qgis worldNoQgis = Except.ok (none, [] ++ importErrorOutput) ∧
    Effect.printLine "❌ Error: PyQGIS libraries not found. Is QGIS_INSTALL_PATH correct?"
      ∈ [] ++ importErrorOutput ∧
    Effect.printLine "   This script cannot run without a local QGIS installation."
      ∈ [] ++ importErrorOutput :=
  initialize_qgis_importError_graceful worldNoQgis [] (by rfl)

/-- C2 counterexample: the workflow-step prints are not commented out.
In a world where initialization succeeds, running the script does emit
the step-description messages (all four of them). -/
theorem mainBlock_prints_step_messages :
    "\nStep 1: Loading spatial layers... (Placeholder)" ∈ printedLines (mainBlock worldOk) ∧
    stepMessages.all (fun m => (printedLines (mainBlock worldOk)).contains m) = true := by
  decide

/-- C2 amended: the step-description print statements are live code, not
comments: every execution of `run_risk_assessment` emits all four step
messages (though no actual processing stands behind them). -/
theorem run_risk_assessment_emits_steps (w : World) :
    stepMessages.all (fun m => (printedLines (run_risk_assessment w)).contains m) = true := by
  have hpl : printedLines (run_risk_assessment w) = placeholderOutput := rfl
  rw [hpl]
  decide

/-- C3: the only observable effect of `run_risk_assessment`, in every
world, is printing the fixed sequence `placeholderOutput`; every effect
is a print (so no raster processing call, no file write, and no
persisted risk map — despite the final message). -/
theorem run_risk_assessment_only_prints (w : World) :
    run_risk_assessment w = placeholderOutput.map Effect.printLine ∧
    (run_risk_assessment w).all isPrintEffect = true ∧
    printedLines (run_risk_assessment w) = placeholderOutput := by
  refine ⟨rfl, rfl, rfl⟩

/-- C4: the four workflow step messages are printed in exactly the order
load (Step 1), clip/standardize (Step 2), normalize (Step 3), weighted
linear combination (Step 4): `stepMessages` lists them in that order and
is a sublist of the printed output of every execution. -/
theorem run_risk_assessment_step_order (w : World) :
    printedLines (run_risk_assessment w) = placeholderOutput ∧
    stepMessages.Sublist (printedLines (run_risk_assessment w)) := by
  refine ⟨rfl, ?_⟩
  have hpl : printedLines (run_risk_assessment w) = placeholderOutput := rfl
  rw [hpl]
  decide

/-- C5: in the main block, `exitQgis` is called iff `initialize_qgis`
returned a (truthy) instance, and on success the trace is exactly:
banner, initialization effects, the workflow, then `exitQgis` and the
closing print — so the workflow runs between start and stop, and
`exitQgis` is never called after a failed initialization. -/
theorem mainBlock_exit_iff_init_success (w : World) :
    (Effect.callExitQgis ∈ mainBlock w ↔ (initInstance w).isSome = true) ∧
    ((initInstance w).isSome = true →
      mainBlock w = headEffects ++ initEffects w ++ run_risk_assessment w ++
        [Effect.callExitQgis, Effect.printLine "\nQGIS environment closed."]) := by
  rcases mainBlock_cases w with ⟨hs, hm⟩ | ⟨hn, hm⟩
  · refine ⟨⟨fun _ => hs, fun _ => ?_⟩, fun _ => hm⟩
    rw [hm]; simp
  · rw [hn]
    refine ⟨⟨fun hmem => ?_, by simp⟩, by simp⟩
    exfalso; rw [hm] at hmem
    rcases List.mem_append.mp hmem with h1 | h2
    · rcases List.mem_append.mp h1 with h0 | hinit
      · simp [headEffects] at h0
      · exact callExitQgis_not_init w hinit
    · simp at h2

theorem mainBlock_exit_iff_init_success_witness :
    Effect.callExitQgis ∈ mainBlock worldOk ∧
    mainBlock worldOk = headEffects ++ initEffects worldOk ++ run_risk_assessment worldOk ++
      [Effect.callExitQgis, Effect.printLine "\nQGIS environment closed."] :=
  ⟨(mainBlock_exit_iff_init_success worldOk).1.mpr (by decide),
   (mainBlock_exit_iff_init_success worldOk).2 (by decide)⟩

/-- C6 counterexample: the script does not locate the QGIS installation.
In a world where QGIS actually lives under `/opt/qgis`, the script still
passes the hard-coded `/usr` to `setPrefixPath` and never passes the
actual location. -/
theorem setPrefixPath_ignores_actual_location :
    worldOpt.actualInstallPath = "/opt/qgis" ∧
    Effect.setPrefixPath "/usr" true ∈ mainBlock worldOpt ∧
    Effect.setPrefixPath "/opt/qgis" true ∉ mainBlock worldOpt ∧
    Effect.setPrefixPath "/opt/qgis" false ∉ mainBlock worldOpt := by
  decide

/-- C6 amended: the script uses the fixed hard-coded constant
`QGIS_INSTALL_PATH = '/usr'` for every execution: whenever it sets the
library prefix path, the path passed is that constant, regardless of
where QGIS is actually installed; no discovery happens. -/
theorem setPrefixPath_uses_constant (w : World) (p : String) (b : Bool)
    (h : Effect.setPrefixPath p b ∈ mainBlock w) :
    p = QGIS_INSTALL_PATH ∧ b = true ∧ QGIS_INSTALL_PATH = "/usr" := by
  rcases mainBlock_cases w with ⟨_, hm⟩ | ⟨_, hm⟩ <;> rw [hm] at h
  · rcases List.mem_append.mp h with h1 | h2
    · rcases List.mem_append.mp h1 with h3 | h4
      · rcases List.mem_append.mp h3 with h5 | h6
        · simp [headEffects] at h5
        · have := setPrefixPath_init w p b h6
          exact ⟨this.1, this.2, rfl⟩
      · simp [run_risk_assessment] at h4
    · simp at h2
  · rcases List.mem_append.mp h with h1 | h2
    · rcases List.mem_append.mp h1 with h5 | h6
      · simp [headEffects] at h5
      · have := setPrefixPath_init w p b h6
        exact ⟨this.1, this.2, rfl⟩
    · simp at h2

theorem setPrefixPath_uses_constant_witness :
    "/usr" = QGIS_INSTALL_PATH ∧ true = true ∧ QGIS_INSTALL_PATH = "/usr" :=
  setPrefixPath_uses_constant worldOk "/usr" true (by decide)

/-- C7 counterexample: the source file is 80 lines long (it ends with a
single trailing newline), not 81. -/
theorem sourceLines_length_not_81 :
    sourceLines.length = 80 ∧ sourceLines.length ≠ 81 := by
  decide

/-- C7 amended: the source file is exactly 80 lines long (81 only when
the empty position after the final newline is counted as a line), and
every line is a comment, a blank line, a `print` statement, or
library-initialization/scaffolding boilerplate; no line contains the
`*` or `+` operators a raster computation or weighting arithmetic would
need. -/
theorem sourceLines_all_boilerplate :
    sourceLines.length = 80 ∧
    sourceLines.all
      (fun l => isCommentLine l || isBlankLine l || isPrintLine l || isBoilerplateLine l)
      = true ∧
    sourceLines.all noArithLine = true := by
  refine ⟨by decide, by decide, by decide⟩

/-- C8: `initialize_qgis` never propagates an `Exception` to its caller:
its result is always `Except.ok` (a handle or `None`), and whenever the
body raises any `Exc`, a matching `except` clause exists, the function
returns `None`, and the handler output is a nonempty list of prints. -/
theorem initialize_qgis_never_propagates (w : World) :
    (∃ r, initialize_qgis w = Except.ok r) ∧
    (∀ eff e, tryBody w = (eff, Except.error e) →
      ∃ out, exceptClauses e = some out ∧
        initialize_qgis w = Except.ok (none, eff ++ out) ∧
        out ≠ [] ∧ out.all isPrintEffect = true) := by
  refine ⟨initialize_qgis_isOk w, ?_⟩
  intro eff e htb
  rcases e with _ | m
  · exact ⟨importErrorOutput, rfl, by unfold initialize_qgis; rw [htb]; rfl,
      by simp [importErrorOutput], by decide⟩
  · exact ⟨unexpectedErrorOutput m, rfl, by unfold initialize_qgis; rw [htb]; rfl,
      by simp [unexpectedErrorOutput], by simp [unexpectedErrorOutput, isPrintEffect]⟩

theorem initialize_qgis_never_propagates_witness :
    (∃ r, initialize_qgis worldProcFail = Except.ok r) ∧
    (∃ out, exceptClauses (Exc.exception "boom") = some out ∧
      initialize_qgis worldProcFail = Except.ok (none,
        [Effect.setPrefixPath "/usr" true, Effect.callInitQgis,
         Effect.sysPathAppend "/usr/apps/qgis/python/plugins"] ++ out) ∧
      out ≠ [] ∧ out.all isPrintEffect = true) :=
  ⟨(initialize_qgis_never_propagates worldProcFail).1,
   (initialize_qgis_never_propagates worldProcFail).2
     [Effect.setPrefixPath "/usr" true, Effect.callInitQgis,
      Effect.sysPathAppend "/usr/apps/qgis/python/plugins"]
     (Exc.exception "boom") (by rfl)⟩

/-- C9: `run_risk_assessment` is deterministic and input-independent:
its effect trace — in particular everything it prints — is identical in
any two worlds. -/
theorem run_risk_assessment_input_independent (w1 w2 : World) :
    run_risk_assessment w1 = run_risk_assessment w2 ∧
    printedLines (run_risk_assessment w1) = printedLines (run_risk_assessment w2) :=
  ⟨rfl, rfl⟩

/-- C10: when `initialize_qgis` returns `None`, the main block prints
the halt message, `exitQgis` is never called, and no workflow step
message appears anywhere in the output. -/
theorem mainBlock_halts_on_failed_init (w : World) (h : initInstance w = none) :
    mainBlock w = headEffects ++ initEffects w ++
      [Effect.printLine "\nScript execution halted due to initialization failure."] ∧
    "\nScript execution halted due to initialization failure." ∈ printedLines (mainBlock w) ∧
    Effect.callExitQgis ∉ mainBlock w ∧
    (∀ m ∈ stepMessages, m ∉ printedLines (mainBlock w)) := by
  rcases mainBlock_cases w with ⟨hs, hm⟩ | ⟨hn, hm⟩
  · rw [h] at hs; simp at hs
  · refine ⟨hm, ?_, ?_, ?_⟩
    · rw [hm]; exact (mem_printedLines _ _).mpr (by simp)
    · intro hmem; rw [hm] at hmem
      rcases List.mem_append.mp hmem with h1 | h2
      · rcases List.mem_append.mp h1 with h0 | hinit
        · simp [headEffects] at h0
        · exact callExitQgis_not_init w hinit
      · simp at h2
    · intro m hm4 hmem
      rw [hm] at hmem
      simp only [printedLines, List.filterMap_append] at hmem
      rcases List.mem_append.mp hmem with h1 | h2
      · rcases List.mem_append.mp h1 with h0 | hinit
        · revert h0; fin_cases hm4 <;> decide
        · exact step_not_in_init w m hm4 hinit
      · revert h2; fin_cases hm4 <;> decide

theorem mainBlock_halts_on_failed_init_witness :
    mainBlock worldNoQgis = headEffects ++ initEffects worldNoQgis ++
      [Effect.printLine "\nScript execution halted due to initialization failure."] ∧
    "\nScript execution halted due to initialization failure."
      ∈ printedLines (mainBlock worldNoQgis) ∧
    Effect.callExitQgis ∉ mainBlock worldNoQgis ∧
    (∀ m ∈ stepMessages, m ∉ printedLines (mainBlock worldNoQgis)) :=
  mainBlock_halts_on_failed_init worldNoQgis (by rfl)

end QgisRiskAssessment
